import Mathlib

/-!
Shallow embedding of the session-reconciliation core of the movieFlix
repository: the auth service (`src/services/supabaseAuth.ts`) and the
auth context (`src/context/AuthContext.tsx`), together with theorems
checking the natural-language specification against this code.

Provider interactions (the supabase client) are modelled as explicit
environment records; every operation returns its result together with
the list of provider calls it issued, so that claims about "no network
call" or "number of profile reads" are statable.
-/

namespace MovieFlix

/-- Domain user record (`src/types/domain.ts`, `User`). `avatarUri` is
optional-or-null in the source; both absent and null are `none`. -/
structure User where
  id : String
  name : String
  email : String
  passwordHash : String
  avatarUri : Option String
deriving Repr, DecidableEq

/-- Profile-store row (`supabaseAuth.ts`, `SupabaseUser`). -/
structure SupabaseUser where
  id : String
  email : String
  name : String
  avatar_uri : Option String
deriving Repr, DecidableEq

/-- `mapSupabaseUserToDomain` (supabaseAuth.ts lines 11-17):
`avatar_uri ?? null` collapses to the row's `Option`, and
`passwordHash` is always the empty string. -/
def mapSupabaseUserToDomain (supabaseUser : SupabaseUser) : User :=
  { id := supabaseUser.id
    email := supabaseUser.email
    name := supabaseUser.name
    avatarUri := supabaseUser.avatar_uri
    passwordHash := "" }

/-- Error value returned by the supabase client: a message plus an
error code (the code is only consulted by `updateUserProfile`). -/
structure ApiError where
  message : String
  code : String := ""
deriving Repr, DecidableEq

/-- The `supabase.auth` user object; only its `id` is consumed. -/
structure AuthUser where
  id : String
deriving Repr, DecidableEq

/-- An opaque session; the code only tests its presence and (in the
event stream) carries it along. -/
structure Session where
  userId : String
deriving Repr, DecidableEq

/-- One provider (network) call issued by the auth service. -/
inductive ProviderCall where
  | authSignUp (email name : String)
  | authSignInWithPassword (email : String)
  | authGetUser
  | authSignOut
  | profileInsert (row : SupabaseUser)
  | profileSelect (id : String)
  | profileUpdate (id : String) (name : Option String) (avatar : Option (Option String))
deriving Repr, DecidableEq

/-- Errors thrown by the auth service and the auth context, one
constructor per throw site (the source throws `Error` with a fixed
message at each of these points). -/
inductive AuthServiceError where
  | emptyName
  | invalidEmail
  | passwordTooShort
  | notConfigured
  | alreadyRegistered
  | signUpFailed (msg : String)
  | missingCredentials
  | wrongCredentials
  | signInFailed (msg : String)
  | profileLoadFailed
  | notAuthorized
  | invalidProfileName
  | profileNotFound
  | rlsError
  | updateFailed (msg : String)
  | notAuthenticated
  | invalidContextName
deriving Repr, DecidableEq

/-- The spec's `InvalidInput` class: empty/malformed email, password
too short, empty name — the synchronous validation errors. -/
def AuthServiceError.isInvalidInput : AuthServiceError → Bool
  | .emptyName => true
  | .invalidEmail => true
  | .passwordTooShort => true
  | .missingCredentials => true
  | .invalidProfileName => true
  | .invalidContextName => true
  | _ => false

/-- JS `String.prototype.trim`: drop whitespace from both ends
(executable model of the source's `.trim()`). -/
def jsTrim (s : String) : String :=
  ⟨((s.data.dropWhile Char.isWhitespace).reverse.dropWhile Char.isWhitespace).reverse⟩

/-- JS `String.prototype.toLowerCase` (executable model of the
source's `.toLowerCase()`). -/
def jsToLower (s : String) : String :=
  ⟨s.data.map Char.toLower⟩

/-- JS `String.prototype.includes`, used to classify provider error
messages. -/
def strIncludes (s pat : String) : Bool :=
  s.toList.tails.any fun t => pat.toList.isPrefixOf t

/-- Environment consumed by `signUp`: configuration flag and the
responses of the two provider calls it can make. -/
structure SignUpEnv where
  configured : Bool
  signUpResult : Except ApiError (Option AuthUser × Option Session)
  insertError : Option ApiError

/-- `signUp` (supabaseAuth.ts lines 19-100). Validation happens before
any provider call; a profile-insert failure is only warned about; the
returned `User` is always the locally synthesized record. -/
def signUp (email password name : String) (env : SignUpEnv) :
    Except AuthServiceError (User × Option Session) × List ProviderCall :=
  if jsTrim name = "" then (.error .emptyName, [])
  else if jsToLower (jsTrim email) = "" then (.error .invalidEmail, [])
  else if password.length < 6 then (.error .passwordTooShort, [])
  else if env.configured = false then (.error .notConfigured, [])
  else
    match env.signUpResult with
    | .error apiErr =>
      if strIncludes apiErr.message "already registered" then
        (.error .alreadyRegistered, [.authSignUp (jsToLower (jsTrim email)) (jsTrim name)])
      else
        (.error (.signUpFailed (if apiErr.message = "" then "erro ao criar conta. Tente novamente." else apiErr.message)),
          [.authSignUp (jsToLower (jsTrim email)) (jsTrim name)])
    | .ok (authUserOpt, sessionOpt) =>
      match authUserOpt with
      | none =>
        (.error (.signUpFailed "erro ao criar conta. Tente novamente."),
          [.authSignUp (jsToLower (jsTrim email)) (jsTrim name)])
      | some authUser =>
        (.ok ({ id := authUser.id, email := jsToLower (jsTrim email), name := jsTrim name,
                avatarUri := none, passwordHash := "" }, sessionOpt),
          [.authSignUp (jsToLower (jsTrim email)) (jsTrim name),
           .profileInsert { id := authUser.id, email := jsToLower (jsTrim email),
                            name := jsTrim name, avatar_uri := none }])

/-- Environment consumed by `signIn`: the password-sign-in response and
the profile store (`.eq('id', x).single()` is a lookup by id; `none`
covers both a query error and an empty result). -/
structure SignInEnv where
  signInResult : Except ApiError (Option AuthUser × Option Session)
  store : String → Option SupabaseUser

/-- `signIn` (supabaseAuth.ts lines 102-138). After a successful
password sign-in it performs a single profile read; a missing profile
makes the whole call fail. -/
def signIn (email password : String) (env : SignInEnv) :
    Except AuthServiceError (User × Option Session) × List ProviderCall :=
  if jsToLower (jsTrim email) = "" ∨ password = "" then (.error .missingCredentials, [])
  else
    match env.signInResult with
    | .error apiErr =>
      if strIncludes apiErr.message "invalid login credentials" then
        (.error .wrongCredentials, [.authSignInWithPassword (jsToLower (jsTrim email))])
      else
        (.error (.signInFailed (if apiErr.message = "" then "erro ao fazer login. Tente novamente." else apiErr.message)),
          [.authSignInWithPassword (jsToLower (jsTrim email))])
    | .ok (authUserOpt, sessionOpt) =>
      match authUserOpt with
      | none =>
        (.error (.signInFailed "erro ao fazer login. Tente novamente."),
          [.authSignInWithPassword (jsToLower (jsTrim email))])
      | some authUser =>
        match env.store authUser.id with
        | none =>
          (.error .profileLoadFailed,
            [.authSignInWithPassword (jsToLower (jsTrim email)), .profileSelect authUser.id])
        | some row =>
          (.ok (mapSupabaseUserToDomain row, sessionOpt),
            [.authSignInWithPassword (jsToLower (jsTrim email)), .profileSelect authUser.id])

/-- Environment consumed by `getCurrentUser` and the auth-event handler:
the current auth user and the profile store. -/
structure GetUserEnv where
  authUser : Option AuthUser
  store : String → Option SupabaseUser

/-- `getCurrentUser` (supabaseAuth.ts lines 147-167): one auth lookup
and, when a session user exists, exactly one profile read; any failure
maps to `none`. -/
def getCurrentUser (env : GetUserEnv) : Option User × List ProviderCall :=
  match env.authUser with
  | none => (none, [.authGetUser])
  | some authUser =>
    ((env.store authUser.id).map mapSupabaseUserToDomain,
      [.authGetUser, .profileSelect authUser.id])

/-- Environment consumed by `updateUserProfile`: current auth user, the
profile store (for the empty-update read-back), and the response of the
`update().select().single()` call (`ok none` models a null row). -/
structure UpdateEnv where
  authUser : Option AuthUser
  store : String → Option SupabaseUser
  updateResult : Except ApiError (Option SupabaseUser)

/-- Body of `updateUserProfile` after `updateData` has been assembled
(supabaseAuth.ts lines 197-221): an empty update performs only a read
of the current row; otherwise a single update call is issued. -/
def updateUserProfileGo (userId : String) (nameField : Option String)
    (avatarField : Option (Option String)) (env : UpdateEnv) :
    Except AuthServiceError User × List ProviderCall :=
  match nameField, avatarField with
  | none, none =>
    match env.store userId with
    | none => (.error .profileNotFound, [.authGetUser, .profileSelect userId])
    | some row => (.ok (mapSupabaseUserToDomain row), [.authGetUser, .profileSelect userId])
  | _, _ =>
    match env.updateResult with
    | .error apiErr =>
      if apiErr.code = "42501" ∨ strIncludes apiErr.message "row-level security" then
        (.error .rlsError, [.authGetUser, .profileUpdate userId nameField avatarField])
      else
        (.error (.updateFailed (if apiErr.message = "" then "erro ao atualizar perfil." else apiErr.message)),
          [.authGetUser, .profileUpdate userId nameField avatarField])
    | .ok none =>
      (.error (.updateFailed "erro ao atualizar perfil."),
        [.authGetUser, .profileUpdate userId nameField avatarField])
    | .ok (some row) =>
      (.ok (mapSupabaseUserToDomain row),
        [.authGetUser, .profileUpdate userId nameField avatarField])

/-- `updateUserProfile` (supabaseAuth.ts lines 169-222). The outer
`Option` of the avatar argument is the presence of the `avatar_uri`
key; the inner `Option` is its string-or-null value (`?? null` makes
the key's value `none` when it was null). -/
def updateUserProfile (userId : String) (updName : Option String)
    (updAvatar : Option (Option String)) (env : UpdateEnv) :
    Except AuthServiceError User × List ProviderCall :=
  match env.authUser with
  | none => (.error .notAuthorized, [.authGetUser])
  | some authUser =>
    if authUser.id ≠ userId then (.error .notAuthorized, [.authGetUser])
    else
      match updName with
      | some rawName =>
        if jsTrim rawName = "" then (.error .invalidProfileName, [.authGetUser])
        else updateUserProfileGo userId (some (jsTrim rawName)) updAvatar env
      | none => updateUserProfileGo userId none updAvatar env

/-- Events of the provider's auth-state stream consumed by
`onAuthStateChange` (`other` covers the event names the handler
ignores). -/
inductive AuthChangeEvent where
  | signedIn
  | signedOut
  | tokenRefreshed
  | initialSession
  | other
deriving Repr, DecidableEq

/-- The handler installed by `onAuthStateChange` (supabaseAuth.ts lines
224-250) for a single event. The first component is the value passed
to the context callback (`none` when no callback fires at all); the
handler keeps no state between events. -/
def handleAuthEvent (event : AuthChangeEvent) (session : Option Session)
    (env : GetUserEnv) : Option (Option User) × List ProviderCall :=
  if event = .signedOut ∨ session = none then (some none, [])
  else if event = .signedIn ∨ event = .tokenRefreshed ∨ event = .initialSession then
    let (user, calls) := getCurrentUser env
    (some user, calls)
  else (none, [])

/-- Provider calls issued while processing a sequence of auth-state
events (the handler closes over a fixed environment and, in this
version of the code, carries no last-seen-id state). -/
def authEventsCalls (events : List (AuthChangeEvent × Option Session))
    (env : GetUserEnv) : List ProviderCall :=
  (events.map fun ev => (handleAuthEvent ev.1 ev.2 env).2).flatten

/-- Does this event make the handler fetch the profile? -/
def triggersProfileFetch : AuthChangeEvent × Option Session → Bool
  | (.signedOut, _) => false
  | (_, none) => false
  | (.signedIn, some _) => true
  | (.tokenRefreshed, some _) => true
  | (.initialSession, some _) => true
  | (.other, some _) => false

/-- Is this call a profile read (`profiles` select)? -/
def ProviderCall.isProfileRead : ProviderCall → Bool
  | .profileSelect _ => true
  | _ => false

/-- Is this call a profile write (insert or update)? -/
def ProviderCall.isProfileWrite : ProviderCall → Bool
  | .profileInsert _ => true
  | .profileUpdate _ _ _ => true
  | _ => false

/-- Number of profile reads in a call trace. -/
def countProfileReads (calls : List ProviderCall) : Nat :=
  (calls.filter ProviderCall.isProfileRead).length

/-- Number of profile writes in a call trace. -/
def countProfileWrites (calls : List ProviderCall) : Nat :=
  (calls.filter ProviderCall.isProfileWrite).length

/-- The context state owned by `AuthProvider` (AuthContext.tsx lines
38-39): the `user` value and the `isLoading` flag. -/
structure CtxState where
  user : Option User
  isLoading : Bool
deriving Repr, DecidableEq

/-- `useState(null)` / `useState(true)` initial values. -/
def initialCtxState : CtxState := { user := none, isLoading := true }

/-- The functional `setUser` update inside the subscription callback
(AuthContext.tsx lines 145-150): a null event value is ignored when a
user is already set. -/
def applyAuthCallback (current : Option User) (authUser : Option User) : Option User :=
  match current, authUser with
  | some u, none => some u
  | _, _ => authUser

/-- Events that mutate the context state over time: the subscription
callback, the 3-second safety timeout, and the two phases of
`hydrate` (`setIsLoading(true)` at entry; user assignment plus
`finally setIsLoading(false)` at exit). -/
inductive CtxEvent where
  | authCb (authUser : Option User)
  | timeoutFire
  | hydrateStart
  | hydrateResult (u : Option User)
deriving Repr, DecidableEq

/-- State transition of the context for one event. -/
def stepCtx (s : CtxState) : CtxEvent → CtxState
  | .authCb au => { user := applyAuthCallback s.user au, isLoading := false }
  | .timeoutFire => { s with isLoading := false }
  | .hydrateStart => { s with isLoading := true }
  | .hydrateResult u => { user := u, isLoading := false }

/-- Run of the context from its initial state over an event list. -/
def ctxRun (events : List CtxEvent) : CtxState :=
  events.foldl stepCtx initialCtxState

/-- Delay of the safety timeout in AuthContext.tsx line 159. -/
def safetyTimeoutMs : Nat := 3000

/-- The same delay in the spec's time units (seconds). -/
def safetyTimeoutUnits : Nat := safetyTimeoutMs / 1000

/-- State at time `t` of a run given as time-stamped events (listed in
chronological order): exactly the events that have fired by `t` have
been applied. -/
def stateAt (timedEvents : List (Nat × CtxEvent)) (t : Nat) : CtxState :=
  ctxRun ((timedEvents.filter fun e => e.1 ≤ t).map (·.2))

/-- `hydrate` (AuthContext.tsx lines 41-52), final state: the
`getCurrentUser` answer is committed and `isLoading` ends false (also
on the catch path, where the user is set to null). -/
def hydrateCtx (_s : CtxState) (env : GetUserEnv) : CtxState × List ProviderCall :=
  let (u, calls) := getCurrentUser env
  ({ user := u, isLoading := false }, calls)

/-- `login` (AuthContext.tsx lines 54-68): on success commit the user
and stop loading; on failure stop loading and rethrow, user unchanged. -/
def loginCtx (s : CtxState) (email password : String) (env : SignInEnv) :
    Except AuthServiceError Unit × CtxState × List ProviderCall :=
  match signIn email password env with
  | (.ok (u, _), calls) => (.ok (), { user := some u, isLoading := false }, calls)
  | (.error e, calls) => (.error e, { s with isLoading := false }, calls)

/-- Environment for `register`: the environments of the three service
calls it can make. -/
structure RegisterEnv where
  signUpEnv : SignUpEnv
  updateEnv : UpdateEnv
  getUserEnv : GetUserEnv

/-- `register` (AuthContext.tsx lines 70-101). `if (avatarUri)` is the
JS truthiness test, false for null/undefined and for the empty string.
An avatar-attachment failure is caught, only warned about, and the
freshly signed-up user is kept. -/
def register (name email password : String) (avatarUri : Option String)
    (s : CtxState) (env : RegisterEnv) :
    Except AuthServiceError Unit × CtxState × List ProviderCall :=
  match signUp email password name env.signUpEnv with
  | (.error e, calls) => (.error e, { s with isLoading := false }, calls)
  | (.ok (newUser, _), calls) =>
    if (match avatarUri with
        | some a => a ≠ ""
        | none => false : Bool) then
      match updateUserProfile newUser.id none (some avatarUri) env.updateEnv with
      | (.ok _, calls2) =>
        (.ok (),
          { user := some (match (getCurrentUser env.getUserEnv).1 with
              | some u => u
              | none => newUser),
            isLoading := false },
          calls ++ calls2 ++ (getCurrentUser env.getUserEnv).2)
      | (.error _, calls2) =>
        (.ok (), { user := some newUser, isLoading := false }, calls ++ calls2)
    else
      (.ok (), { user := some newUser, isLoading := false }, calls)

/-- Body of the context `updateProfile` after validation (AuthContext.tsx
lines 128-129): delegate to the service and commit the returned row. -/
def updateProfileCtxGo (s : CtxState) (u : User) (nameField : Option String)
    (avatarArg : Option (Option String)) (env : UpdateEnv) :
    Except AuthServiceError Unit × CtxState × List ProviderCall :=
  match updateUserProfile u.id nameField avatarArg env with
  | (.ok updatedUser, calls) => (.ok (), { s with user := some updatedUser }, calls)
  | (.error e, calls) => (.error e, s, calls)

/-- `updateProfile` (AuthContext.tsx lines 108-132): requires a current
user; a name that trims to empty is rejected before any provider call;
`isLoading` is untouched. -/
def updateProfileCtx (s : CtxState) (nameArg : Option String)
    (avatarArg : Option (Option String)) (env : UpdateEnv) :
    Except AuthServiceError Unit × CtxState × List ProviderCall :=
  match s.user with
  | none => (.error .notAuthenticated, s, [])
  | some u =>
    match nameArg with
    | some rawName =>
      if jsTrim rawName = "" then (.error .invalidContextName, s, [])
      else updateProfileCtxGo s u (some (jsTrim rawName)) avatarArg env
    | none => updateProfileCtxGo s u none avatarArg env

/-! Shared concrete values for witnesses and counterexamples. -/

/-- A concrete profile row. -/
def sampleRow : SupabaseUser :=
  { id := "u1", email := "ana@test.com", name := "Ana", avatar_uri := none }

/-- The domain user of `sampleRow`. -/
def sampleUser : User := mapSupabaseUserToDomain sampleRow

/-- A sign-up environment in which the identity provider succeeds. -/
def goodSignUpEnv : SignUpEnv :=
  { configured := true
    signUpResult := .ok (some { id := "u1" }, none)
    insertError := none }

/-- A get-user environment in which a session exists and the profile
row is visible. -/
def goodGetUserEnv : GetUserEnv :=
  { authUser := some { id := "u1" }, store := fun _ => some sampleRow }

/-- An update environment with no authenticated provider session, so
any `updateUserProfile` call fails. -/
def noSessionUpdateEnv : UpdateEnv :=
  { authUser := none, store := fun _ => none, updateResult := .error { message := "" } }

/-- A register environment whose sign-up succeeds and whose avatar
attachment fails (no provider session at update time). -/
def avatarFailRegisterEnv : RegisterEnv :=
  { signUpEnv := goodSignUpEnv
    updateEnv := noSessionUpdateEnv
    getUserEnv := goodGetUserEnv }

/-! Claim theorems. -/

/-- Claim C5: every successful registration with non-empty name, non-empty
email, password of length at least 6, and no avatar supplied ends with
a user whose `avatarUri` is null, whose `name` is the trimmed input
name, and whose `email` is the trimmed, lower-cased input email. -/
theorem c5_register_no_avatar (name email password : String) (s : CtxState)
    (env : RegisterEnv) (au : AuthUser) (sess : Option Session)
    (hname : jsTrim name ≠ "") (hemail : jsToLower (jsTrim email) ≠ "")
    (hpw : 6 ≤ password.length) (hcfg : env.signUpEnv.configured = true)
    (hres : env.signUpEnv.signUpResult = .ok (some au, sess)) :
    (register name email password none s env).1 = .ok () ∧
    (register name email password none s env).2.1 =
      { user := some { id := au.id, name := jsTrim name, email := jsToLower (jsTrim email),
                       passwordHash := "", avatarUri := none },
        isLoading := false } := by
  have hsu : signUp email password name env.signUpEnv =
      (.ok ({ id := au.id, email := jsToLower (jsTrim email), name := jsTrim name,
              avatarUri := none, passwordHash := "" }, sess),
        [.authSignUp (jsToLower (jsTrim email)) (jsTrim name),
         .profileInsert { id := au.id, email := jsToLower (jsTrim email),
                          name := jsTrim name, avatar_uri := none }]) := by
    unfold signUp
    rw [if_neg hname, if_neg hemail, if_neg (by omega), if_neg (by simp [hcfg]), hres]
  constructor <;> simp [register, hsu]

/-- Witness for C5: the spec's scenario, registering Ana with no
avatar. -/
theorem c5_witness :
    (register "Ana" "ana@test.com" "abcdef" none initialCtxState avatarFailRegisterEnv).1 = .ok () ∧
    (register "Ana" "ana@test.com" "abcdef" none initialCtxState avatarFailRegisterEnv).2.1 =
      { user := some { id := "u1", name := "Ana", email := "ana@test.com",
                       passwordHash := "", avatarUri := none },
        isLoading := false } :=
  c5_register_no_avatar "Ana" "ana@test.com" "abcdef" initialCtxState
    avatarFailRegisterEnv { id := "u1" } none
    (by decide) (by decide) (by decide) rfl rfl

/-- Claim C6: a registration whose password is shorter than 6 characters
fails with an `InvalidInput`-class error and issues no provider call,
both at the service level (`signUp`) and through the context's
`register`. -/
theorem c6_short_password (email password name : String) (env : SignUpEnv)
    (avatarUri : Option String) (s : CtxState) (envR : RegisterEnv)
    (hpw : password.length < 6) :
    (∃ e, AuthServiceError.isInvalidInput e = true ∧
      (signUp email password name env).1 = .error e) ∧
    (signUp email password name env).2 = [] ∧
    (∃ e, AuthServiceError.isInvalidInput e = true ∧
      (register name email password avatarUri s envR).1 = .error e) ∧
    (register name email password avatarUri s envR).2.2 = [] := by
  have key : ∀ env' : SignUpEnv, ∃ e, AuthServiceError.isInvalidInput e = true ∧
      signUp email password name env' = (.error e, []) := by
    intro env'
    by_cases hn : jsTrim name = ""
    · exact ⟨.emptyName, rfl, by unfold signUp; rw [if_pos hn]⟩
    · by_cases he : jsToLower (jsTrim email) = ""
      · exact ⟨.invalidEmail, rfl, by unfold signUp; rw [if_neg hn, if_pos he]⟩
      · exact ⟨.passwordTooShort, rfl, by
          unfold signUp; rw [if_neg hn, if_neg he, if_pos hpw]⟩
  obtain ⟨e1, he1, hsu1⟩ := key env
  obtain ⟨e2, he2, hsu2⟩ := key envR.signUpEnv
  refine ⟨⟨e1, he1, by rw [hsu1]⟩, by rw [hsu1], ⟨e2, he2, ?_⟩, ?_⟩ <;>
    simp [register, hsu2]

/-- Witness for C6: registering with the five-character password
"abcde" fails with `InvalidInput` and an empty call trace. -/
theorem c6_witness :
    (∃ e, AuthServiceError.isInvalidInput e = true ∧
      (signUp "ana@test.com" "abcde" "Ana" goodSignUpEnv).1 = .error e) ∧
    (signUp "ana@test.com" "abcde" "Ana" goodSignUpEnv).2 = [] ∧
    (∃ e, AuthServiceError.isInvalidInput e = true ∧
      (register "Ana" "ana@test.com" "abcde" none initialCtxState avatarFailRegisterEnv).1 = .error e) ∧
    (register "Ana" "ana@test.com" "abcde" none initialCtxState avatarFailRegisterEnv).2.2 = [] :=
  c6_short_password "ana@test.com" "abcde" "Ana" goodSignUpEnv none
    initialCtxState avatarFailRegisterEnv (by decide)

/-- Claim C7: on an authenticated state, a profile update whose name trims to
empty fails with `InvalidInput`, leaves the context state untouched,
and issues no provider call. -/
theorem c7_blank_name_update (s : CtxState) (u : User) (rawName : String)
    (avatarArg : Option (Option String)) (env : UpdateEnv)
    (hu : s.user = some u) (hname : jsTrim rawName = "") :
    updateProfileCtx s (some rawName) avatarArg env =
      (.error .invalidContextName, s, []) := by
  unfold updateProfileCtx
  rw [hu]
  simp [hname]

/-- Witness for C7: `updateProfile({name: "  "})` with Ana signed in. -/
theorem c7_witness :
    updateProfileCtx { user := some sampleUser, isLoading := false }
      (some "  ") none noSessionUpdateEnv =
      (.error .invalidContextName, { user := some sampleUser, isLoading := false }, []) :=
  c7_blank_name_update { user := some sampleUser, isLoading := false }
    sampleUser "  " none noSessionUpdateEnv rfl (by decide)

/-- Claim C8: when the best-effort avatar attachment after account creation
fails, `register` still succeeds, the state is authenticated with the
freshly created user (the best-known profile), and the failure is not
surfaced to the caller. -/
theorem c8_avatar_failure_swallowed (name email password avatar : String)
    (s : CtxState) (env : RegisterEnv) (u : User) (sess : Option Session)
    (e : AuthServiceError)
    (hsu : (signUp email password name env.signUpEnv).1 = .ok (u, sess))
    (havatar : avatar ≠ "")
    (hupd : (updateUserProfile u.id none (some (some avatar)) env.updateEnv).1 = .error e) :
    (register name email password (some avatar) s env).1 = .ok () ∧
    (register name email password (some avatar) s env).2.1 =
      { user := some u, isLoading := false } := by
  rcases h1 : signUp email password name env.signUpEnv with ⟨r1, calls1⟩
  rw [h1] at hsu
  simp only at hsu
  subst hsu
  rcases h2 : updateUserProfile u.id none (some (some avatar)) env.updateEnv with ⟨r2, calls2⟩
  rw [h2] at hupd
  simp only at hupd
  subst hupd
  constructor <;> simp [register, h1, h2, havatar]

/-- Witness for C8: registering Ana with an avatar while the provider
rejects the profile update (no session at update time). -/
theorem c8_witness :
    (register "Ana" "ana@test.com" "abcdef" (some "file:///a.png")
      initialCtxState avatarFailRegisterEnv).1 = .ok () ∧
    (register "Ana" "ana@test.com" "abcdef" (some "file:///a.png")
      initialCtxState avatarFailRegisterEnv).2.1 =
      { user := some { id := "u1", name := "Ana", email := "ana@test.com",
                       passwordHash := "", avatarUri := none },
        isLoading := false } :=
  c8_avatar_failure_swallowed "Ana" "ana@test.com" "abcdef" "file:///a.png"
    initialCtxState avatarFailRegisterEnv
    { id := "u1", name := "Ana", email := "ana@test.com",
      passwordHash := "", avatarUri := none }
    none .notAuthorized rfl (by decide) rfl

/-- Claim C9: on an authenticated state, `updateProfile` with an empty
partial performs no profile write: it issues only the auth lookup and
one profile read, and commits the stored row unchanged (same name,
email, and avatar). -/
theorem c9_empty_update (s : CtxState) (u : User) (env : UpdateEnv)
    (au : AuthUser) (row : SupabaseUser)
    (hu : s.user = some u) (hau : env.authUser = some au) (hid : au.id = u.id)
    (hrow : env.store u.id = some row) :
    updateProfileCtx s none none env =
      (.ok (), { s with user := some (mapSupabaseUserToDomain row) },
        [.authGetUser, .profileSelect u.id]) ∧
    countProfileWrites (updateProfileCtx s none none env).2.2 = 0 ∧
    (mapSupabaseUserToDomain row).name = row.name ∧
    (mapSupabaseUserToDomain row).email = row.email ∧
    (mapSupabaseUserToDomain row).avatarUri = row.avatar_uri := by
  have hsvc : updateUserProfile u.id none none env =
      (.ok (mapSupabaseUserToDomain row), [.authGetUser, .profileSelect u.id]) := by
    simp [updateUserProfile, hau, hid, updateUserProfileGo, hrow]
  have hctx : updateProfileCtx s none none env =
      (.ok (), { s with user := some (mapSupabaseUserToDomain row) },
        [.authGetUser, .profileSelect u.id]) := by
    simp [updateProfileCtx, hu, updateProfileCtxGo, hsvc]
  refine ⟨hctx, ?_, rfl, rfl, rfl⟩
  rw [hctx]
  rfl

/-- Witness for C9: Ana updates her profile with an empty partial; the
stored row comes back unchanged and nothing is written. -/
theorem c9_witness :
    updateProfileCtx { user := some sampleUser, isLoading := false } none none
      { authUser := some { id := "u1" }, store := fun _ => some sampleRow,
        updateResult := .error { message := "" } } =
      (.ok (), { user := some (mapSupabaseUserToDomain sampleRow), isLoading := false },
        [.authGetUser, .profileSelect "u1"]) ∧
    countProfileWrites (updateProfileCtx { user := some sampleUser, isLoading := false }
      none none
      { authUser := some { id := "u1" }, store := fun _ => some sampleRow,
        updateResult := .error { message := "" } }).2.2 = 0 ∧
    (mapSupabaseUserToDomain sampleRow).name = sampleRow.name ∧
    (mapSupabaseUserToDomain sampleRow).email = sampleRow.email ∧
    (mapSupabaseUserToDomain sampleRow).avatarUri = sampleRow.avatar_uri :=
  c9_empty_update { user := some sampleUser, isLoading := false } sampleUser
    { authUser := some { id := "u1" }, store := fun _ => some sampleRow,
      updateResult := .error { message := "" } }
    { id := "u1" } sampleRow rfl rfl rfl rfl

/-- Claim C10: every `User` produced by `signUp`, `signIn`, `getCurrentUser`
or `updateUserProfile` carries an empty `passwordHash`: no operation
ever stores a password or hash in the field. -/
theorem c10_password_hash_empty :
    (∀ email password name (env : SignUpEnv) u sess,
      (signUp email password name env).1 = .ok (u, sess) → u.passwordHash = "") ∧
    (∀ email password (env : SignInEnv) u sess,
      (signIn email password env).1 = .ok (u, sess) → u.passwordHash = "") ∧
    (∀ (env : GetUserEnv) u,
      (getCurrentUser env).1 = some u → u.passwordHash = "") ∧
    (∀ userId updName updAvatar (env : UpdateEnv) u,
      (updateUserProfile userId updName updAvatar env).1 = .ok u → u.passwordHash = "") := by
  refine ⟨?_, ?_, ?_, ?_⟩
  · intro email password name env u sess h
    unfold signUp at h
    split at h
    · simp at h
    split at h
    · simp at h
    split at h
    · simp at h
    split at h
    · simp at h
    split at h
    · split at h <;> simp at h
    split at h
    · simp at h
    · simp only [Except.ok.injEq, Prod.mk.injEq] at h
      rw [← h.1]
  · intro email password env u sess h
    unfold signIn at h
    split at h
    · simp at h
    split at h
    · split at h <;> simp at h
    split at h
    · simp at h
    split at h
    · simp at h
    · simp only [Except.ok.injEq, Prod.mk.injEq] at h
      rw [← h.1]
      rfl
  · intro env u h
    unfold getCurrentUser at h
    split at h
    · simp at h
    · simp only at h
      rcases henv : GetUserEnv.store env _ with _ | row
      · rw [henv] at h
        simp at h
      · rw [henv] at h
        simp at h
        rw [← h]
        rfl
  · intro userId updName updAvatar env u h
    unfold updateUserProfile at h
    split at h
    · simp at h
    split at h
    · simp at h
    split at h
    · split at h
      · simp at h
      · unfold updateUserProfileGo at h
        split at h
        · split at h
          · simp at h
          · simp only [Except.ok.injEq] at h
            rw [← h]
            rfl
        split at h
        · split at h <;> simp at h
        · simp at h
        · simp only [Except.ok.injEq] at h
          rw [← h]
          rfl
    · unfold updateUserProfileGo at h
      split at h
      · split at h
        · simp at h
        · simp only [Except.ok.injEq] at h
          rw [← h]
          rfl
      split at h
      · split at h <;> simp at h
      · simp at h
      · simp only [Except.ok.injEq] at h
        rw [← h]
        rfl

/-- Witness for C10: each of the four operations evaluated at a
concrete successful input yields a user with empty `passwordHash`. -/
theorem c10_witness :
    ({ id := "u1", email := "ana@test.com", name := "Ana",
       avatarUri := none, passwordHash := "" } : User).passwordHash = "" ∧
    (mapSupabaseUserToDomain sampleRow).passwordHash = "" ∧
    sampleUser.passwordHash = "" :=
  ⟨c10_password_hash_empty.1 "ana@test.com" "abcdef" "Ana" goodSignUpEnv
      { id := "u1", email := "ana@test.com", name := "Ana",
        avatarUri := none, passwordHash := "" } none rfl,
   c10_password_hash_empty.2.2.1 goodGetUserEnv (mapSupabaseUserToDomain sampleRow) rfl,
   c10_password_hash_empty.2.1 "ana@test.com" "abcdef"
      { signInResult := .ok (some { id := "u1" }, none), store := fun _ => some sampleRow }
      sampleUser none rfl⟩

/-- Claim C4: in a run in which the subscription never fires and `hydrate`
is never invoked, only the safety timeout (scheduled at 3 time units)
acts: at the timeout `isLoading` is false and the user is still
absent, before it the user is also absent, and once `isLoading` is
false no later event other than a fresh `hydrate` invocation ever sets
it back to true. -/
theorem c4_safety_timeout :
    (∀ t, safetyTimeoutUnits ≤ t →
      stateAt [(safetyTimeoutUnits, .timeoutFire)] t = { user := none, isLoading := false }) ∧
    (∀ t, (stateAt [(safetyTimeoutUnits, .timeoutFire)] t).user = none) ∧
    (∀ (s : CtxState) (es : List CtxEvent), s.isLoading = false →
      (∀ e ∈ es, e ≠ CtxEvent.hydrateStart) →
      (es.foldl stepCtx s).isLoading = false) := by
  refine ⟨?_, ?_, ?_⟩
  · intro t ht
    unfold stateAt
    rw [List.filter_cons_of_pos (by simpa using ht)]
    rfl
  · intro t
    unfold stateAt
    by_cases ht : safetyTimeoutUnits ≤ t
    · rw [List.filter_cons_of_pos (by simpa using ht)]
      rfl
    · rw [List.filter_cons_of_neg (by simpa using ht)]
      rfl
  · intro s es
    induction es generalizing s with
    | nil => intro h _; exact h
    | cons e rest ih =>
      intro h hne
      have hload : (stepCtx s e).isLoading = false := by
        cases e with
        | authCb au => rfl
        | timeoutFire => simp [stepCtx]
        | hydrateStart => exact absurd rfl (hne _ (by simp))
        | hydrateResult u => rfl
      exact ih (stepCtx s e) hload fun e' he' => hne e' (by simp [he'])

/-- Witness for C4: at exactly 3 time units the state is
`(absent, not loading)`, and a burst of later callback results keeps
`isLoading` false. -/
theorem c4_witness :
    stateAt [(safetyTimeoutUnits, .timeoutFire)] 3 = { user := none, isLoading := false } ∧
    ([CtxEvent.authCb (some sampleUser), CtxEvent.hydrateResult none,
       CtxEvent.timeoutFire].foldl stepCtx
      { user := none, isLoading := false }).isLoading = false :=
  ⟨c4_safety_timeout.1 3 (by decide),
   c4_safety_timeout.2.2 { user := none, isLoading := false }
     [CtxEvent.authCb (some sampleUser), CtxEvent.hydrateResult none, CtxEvent.timeoutFire]
     rfl (by decide)⟩

/-- Claim C1 counterexample: a signed-out event delivers `null` to the
context callback, but a previously authenticated user is retained by
the callback's guard, so the state does not become unauthenticated. -/
theorem c1_counterexample :
    (handleAuthEvent .signedOut none goodGetUserEnv).1 = some none ∧
    (stepCtx { user := some sampleUser, isLoading := false } (.authCb none)).user
      = some sampleUser ∧
    some sampleUser ≠ (none : Option User) := by
  refine ⟨rfl, rfl, by simp⟩

/-- Claim C1 as amended: on a signed-out (or session-less) event the handler
always delivers `null`, and the context then sets `isLoading` to false
but leaves the user value exactly as it was — a previously
authenticated user stays authenticated, and an absent user stays
absent. -/
theorem c1_signed_out_keeps_user (event : AuthChangeEvent) (session : Option Session)
    (env : GetUserEnv) (s : CtxState)
    (h : event = .signedOut ∨ session = none) :
    (handleAuthEvent event session env).1 = some none ∧
    (stepCtx s (.authCb none)).user = s.user ∧
    (stepCtx s (.authCb none)).isLoading = false := by
  refine ⟨?_, ?_, rfl⟩
  · unfold handleAuthEvent
    rw [if_pos h]
  · rcases s with ⟨u, l⟩
    cases u <;> rfl

/-- Witness for C1 (amended): a signed-out event against a state where
Ana is signed in leaves her signed in while ending loading. -/
theorem c1_witness :
    (handleAuthEvent .signedOut (some { userId := "u1" }) goodGetUserEnv).1 = some none ∧
    (stepCtx { user := some sampleUser, isLoading := true } (.authCb none)).user
      = some sampleUser ∧
    (stepCtx { user := some sampleUser, isLoading := true } (.authCb none)).isLoading
      = false :=
  c1_signed_out_keeps_user .signedOut (some { userId := "u1" }) goodGetUserEnv
    { user := some sampleUser, isLoading := true } (Or.inl rfl)

/-- A sign-in environment in which authentication succeeds but the
profile row is not (yet) visible in the store. -/
def missingProfileSignInEnv : SignInEnv :=
  { signInResult := .ok (some { id := "u1" }, some { userId := "u1" })
    store := fun _ => none }

/-- Claim C2 counterexample: with a successful authentication and a missing
profile row, `signIn` performs exactly one profile read (no retry) and
fails with a profile-load error instead of falling back to a
synthesized user. -/
theorem c2_counterexample :
    (signIn "ana@test.com" "abcdef" missingProfileSignInEnv).1
      = .error .profileLoadFailed ∧
    countProfileReads (signIn "ana@test.com" "abcdef" missingProfileSignInEnv).2 = 1 := by
  exact ⟨rfl, rfl⟩

/-- Claim C2 as amended: no retry or backoff exists. Each flow attempts the
profile read at most once: `signIn` performs exactly one read and
fails on "not found"; `getCurrentUser` (plain hydration and the
event handler) performs exactly one read and maps "not found" to an
absent user (hydration ends unauthenticated, the handler emits null);
and `signUp` performs no profile read at all, always returning the
locally synthesized minimal user (id, normalized email, trimmed
name). -/
theorem c2_single_attempt_no_fallback :
    (∀ email password (env : SignInEnv) au sess,
      jsToLower (jsTrim email) ≠ "" → password ≠ "" →
      env.signInResult = .ok (some au, sess) → env.store au.id = none →
      (signIn email password env).1 = .error .profileLoadFailed ∧
      countProfileReads (signIn email password env).2 = 1) ∧
    (∀ (env : GetUserEnv) au, env.authUser = some au → env.store au.id = none →
      (getCurrentUser env).1 = none ∧
      countProfileReads (getCurrentUser env).2 = 1 ∧
      (∀ s, (hydrateCtx s env).1 = { user := none, isLoading := false }) ∧
      (∀ sess : Session, (handleAuthEvent .signedIn (some sess) env).1 = some none)) ∧
    (∀ email password name (env : SignUpEnv),
      countProfileReads (signUp email password name env).2 = 0) ∧
    (∀ email password name (env : SignUpEnv) u sess,
      (signUp email password name env).1 = .ok (u, sess) →
      u.email = jsToLower (jsTrim email) ∧ u.name = jsTrim name ∧
      u.avatarUri = none) := by
  refine ⟨?_, ?_, ?_, ?_⟩
  · intro email password env au sess hemail hpw hres hstore
    have : signIn email password env =
        (.error .profileLoadFailed,
          [.authSignInWithPassword (jsToLower (jsTrim email)), .profileSelect au.id]) := by
      simp only [signIn, if_neg (not_or.mpr ⟨hemail, hpw⟩), hres, hstore]
    rw [this]
    exact ⟨rfl, rfl⟩
  · intro env au hau hstore
    have hgcu : getCurrentUser env =
        (none, [.authGetUser, .profileSelect au.id]) := by
      simp only [getCurrentUser, hau, hstore, Option.map_none']
    refine ⟨by rw [hgcu], by rw [hgcu]; rfl, ?_, ?_⟩
    · intro s
      unfold hydrateCtx
      rw [hgcu]
    · intro sess
      unfold handleAuthEvent
      rw [if_neg (by simp), if_pos (by simp), hgcu]
  · intro email password name env
    unfold signUp
    split
    · rfl
    split
    · rfl
    split
    · rfl
    split
    · rfl
    split
    · split <;> rfl
    split
    · rfl
    · rfl
  · intro email password name env u sess h
    unfold signUp at h
    split at h
    · simp at h
    split at h
    · simp at h
    split at h
    · simp at h
    split at h
    · simp at h
    split at h
    · split at h <;> simp at h
    split at h
    · simp at h
    · simp only [Except.ok.injEq, Prod.mk.injEq] at h
      rw [← h.1]
      exact ⟨rfl, rfl, rfl⟩

/-- Witness for C2 (amended): concrete evaluations of the four flows
with the profile row missing. -/
theorem c2_witness :
    ((signIn "ana@test.com" "abcdef" missingProfileSignInEnv).1
        = .error .profileLoadFailed ∧
      countProfileReads (signIn "ana@test.com" "abcdef" missingProfileSignInEnv).2 = 1) ∧
    ((getCurrentUser { authUser := some { id := "u1" }, store := fun _ => none }).1 = none ∧
      countProfileReads
        (getCurrentUser { authUser := some { id := "u1" }, store := fun _ => none }).2 = 1) ∧
    countProfileReads (signUp "ana@test.com" "abcdef" "Ana" goodSignUpEnv).2 = 0 :=
  have h2 := c2_single_attempt_no_fallback.2.1
    { authUser := some { id := "u1" }, store := fun _ => none } { id := "u1" } rfl rfl
  ⟨c2_single_attempt_no_fallback.1 "ana@test.com" "abcdef" missingProfileSignInEnv
      { id := "u1" } (some { userId := "u1" }) (by decide) (by decide) rfl rfl,
   ⟨h2.1, h2.2.1⟩,
   c2_single_attempt_no_fallback.2.2.1 "ana@test.com" "abcdef" "Ana" goodSignUpEnv⟩

/-- Claim C3 counterexample: two consecutive signed-in-type events for the
same identity id "u1" trigger two profile reads, not at most one — the
handler in this code keeps no last-seen identity id. -/
theorem c3_counterexample :
    countProfileReads (authEventsCalls
      [(.signedIn, some { userId := "u1" }), (.tokenRefreshed, some { userId := "u1" })]
      goodGetUserEnv) = 2 ∧
    ¬ countProfileReads (authEventsCalls
      [(.signedIn, some { userId := "u1" }), (.tokenRefreshed, some { userId := "u1" })]
      goodGetUserEnv) ≤ 1 := by
  exact ⟨rfl, by decide⟩

/-- While a provider session exists, one handled event contributes one
profile read exactly when it is a signed-in-type event with a
session. -/
theorem handleAuthEvent_read_count (event : AuthChangeEvent) (session : Option Session)
    (env : GetUserEnv) (au : AuthUser) (hau : env.authUser = some au) :
    countProfileReads (handleAuthEvent event session env).2 =
      if triggersProfileFetch (event, session) then 1 else 0 := by
  cases event <;> cases session <;>
    simp [handleAuthEvent, getCurrentUser, hau, triggersProfileFetch,
      countProfileReads, ProviderCall.isProfileRead]

/-- Claim C3 as amended: the handler performs no de-duplication — every
signed-in-type event carrying a session triggers its own profile read,
regardless of whether the identity id matches the previous event's, so
n such consecutive events trigger exactly n reads (two for two
same-id events). -/
theorem c3_no_dedup (events : List (AuthChangeEvent × Option Session))
    (env : GetUserEnv) (au : AuthUser) (hau : env.authUser = some au) :
    countProfileReads (authEventsCalls events env) =
      (events.filter triggersProfileFetch).length := by
  induction events with
  | nil => rfl
  | cons ev rest ih =>
    have hsplit : authEventsCalls (ev :: rest) env =
        (handleAuthEvent ev.1 ev.2 env).2 ++ authEventsCalls rest env := by
      simp [authEventsCalls]
    rw [hsplit]
    have happ : countProfileReads
        ((handleAuthEvent ev.1 ev.2 env).2 ++ authEventsCalls rest env) =
        countProfileReads (handleAuthEvent ev.1 ev.2 env).2 +
          countProfileReads (authEventsCalls rest env) := by
      simp [countProfileReads, List.filter_append]
    rw [happ, handleAuthEvent_read_count ev.1 ev.2 env au hau, ih]
    rcases ev with ⟨e, sess⟩
    by_cases ht : triggersProfileFetch (e, sess) = true
    · rw [if_pos ht, List.filter_cons_of_pos ht]
      simp [Nat.add_comm]
    · rw [if_neg ht, List.filter_cons_of_neg (by simpa using ht)]
      simp

/-- Witness for C3 (amended): the two-event same-id trace performs
exactly two profile reads. -/
theorem c3_witness :
    countProfileReads (authEventsCalls
      [(.signedIn, some { userId := "u1" }), (.tokenRefreshed, some { userId := "u1" })]
      goodGetUserEnv) =
      ([((AuthChangeEvent.signedIn : AuthChangeEvent), some { userId := "u1" }),
        (.tokenRefreshed, some { userId := "u1" })].filter triggersProfileFetch).length :=
  c3_no_dedup
    [(.signedIn, some { userId := "u1" }), (.tokenRefreshed, some { userId := "u1" })]
    goodGetUserEnv { id := "u1" } rfl

end MovieFlix
